import Mathlib

/-!
Verification development for the OpenFlow codec and normalization layer of
lib/ofp-util.c (message-type registry, OpenFlow 1.0 match codec, rule
normalizer, protocol capability resolver, flow-mod and flow-stats
translators).

Shallow embedding conventions:
  * machine integers are `Nat` with explicit bit masks where overflow or
    truncation matters;
  * big-endian byte-order conversion (htons and friends) is the identity at
    the value level, so wire fields are plain host-order `Nat` values;
  * raw buffers are `List Nat` of byte values, read through a total
    accessor;
  * fallible C functions returning an `enum ofperr` become functions into
    `Except Ofperr`, or pairs carrying the stored output parameter;
  * bit-flag sets that the C code manipulates one named flag at a time
    (`flow_wildcards_t`, the `may_match` enum) become structures with one
    `Bool` field per named flag.

Wire constants fixed by the OpenFlow 1.0/1.1/1.2 specifications and the
Nicira extension headers are reproduced here with their standard values.
-/

/-! ### Wire protocol constants (OpenFlow / 802.1Q / IP) -/

def OFP10_VERSION : Nat := 1
def OFP11_VERSION : Nat := 2
def OFP12_VERSION : Nat := 3

def OFPT_VENDOR : Nat := 4
def OFPT10_STATS_REQUEST : Nat := 16
def OFPT10_STATS_REPLY : Nat := 17
def OFPT11_STATS_REQUEST : Nat := 18
def OFPT11_STATS_REPLY : Nat := 19

def NX_VENDOR_ID : Nat := 0x00002320
def OFPST_VENDOR : Nat := 0xffff

/-- OpenFlow 1.0 flow wildcard bits (enum ofp_flow_wildcards). -/
def OFPFW10_IN_PORT : Nat := 1 <<< 0
def OFPFW10_DL_VLAN : Nat := 1 <<< 1
def OFPFW10_DL_SRC : Nat := 1 <<< 2
def OFPFW10_DL_DST : Nat := 1 <<< 3
def OFPFW10_DL_TYPE : Nat := 1 <<< 4
def OFPFW10_NW_PROTO : Nat := 1 <<< 5
def OFPFW10_TP_SRC : Nat := 1 <<< 6
def OFPFW10_TP_DST : Nat := 1 <<< 7
def OFPFW10_NW_SRC_SHIFT : Nat := 8
def OFPFW10_NW_DST_SHIFT : Nat := 14
def OFPFW10_DL_VLAN_PCP : Nat := 1 <<< 20
def OFPFW10_NW_TOS : Nat := 1 <<< 21
def OFPFW10_ALL : Nat := (1 <<< 22) - 1

/-- 802.1Q tag control information layout (lib/packets.h). -/
def VLAN_VID_MASK : Nat := 0x0fff
def VLAN_PCP_MASK : Nat := 0xe000
def VLAN_PCP_SHIFT : Nat := 13
def VLAN_CFI : Nat := 0x1000

def OFP10_VLAN_NONE : Nat := 0xffff

def IP_DSCP_MASK : Nat := 0xfc

def ETH_TYPE_IP : Nat := 0x0800
def ETH_TYPE_ARP : Nat := 0x0806
def ETH_TYPE_IPV6 : Nat := 0x86dd
def ETH_TYPE_MPLS : Nat := 0x8847
def ETH_TYPE_MPLS_MCAST : Nat := 0x8848
def ETH_TYPE_VLAN : Nat := 0x8100
def ETH_TYPE_VLAN_8021AD : Nat := 0x88a8

def IPPROTO_ICMP : Nat := 1
def IPPROTO_TCP : Nat := 6
def IPPROTO_UDP : Nat := 17
def IPPROTO_ICMPV6 : Nat := 58

def ND_NEIGHBOR_SOLICIT : Nat := 135
def ND_NEIGHBOR_ADVERT : Nat := 136

/-- OFP_DL_TYPE_NOT_ETH_TYPE / FLOW_DL_TYPE_NONE sentinel (0x05ff). -/
def OFP_DL_TYPE_NOT_ETH_TYPE : Nat := 0x05ff
def FLOW_DL_TYPE_NONE : Nat := 0x05ff

/-- All-ones masks for the fixed-width fields. -/
def MASK16 : Nat := 0xffff
def MASK32 : Nat := 0xffffffff
def MASK48 : Nat := 0xffffffffffff

/-- Number of NXM register fields (FLOW_N_REGS). -/
def FLOW_N_REGS : Nat := 8

/-! ### Symbolic OpenFlow error codes (enum ofperr) -/

inductive Ofperr where
  | badLen
  | badVendor
  | badSubtype
  | badStat
  | badType
  | badValue
  | badField
  | badTag
  | badMatchLen
  | badMatchType
  | groupsNotSupported
  | nxmInvalid
  deriving DecidableEq

/-! ### Raw buffer access

A received message is a list of byte values.  `byteAt` is the total read
accessor; multi-byte fields are big-endian, exactly as on the wire. -/

def byteAt (mem : List Nat) (i : Nat) : Nat := mem.getD i 0

def be16At (mem : List Nat) (i : Nat) : Nat :=
  byteAt mem i * 256 + byteAt mem (i + 1)

def be32At (mem : List Nat) (i : Nat) : Nat :=
  ((byteAt mem i * 256 + byteAt mem (i + 1)) * 256 + byteAt mem (i + 2)) * 256
    + byteAt mem (i + 3)

/-- ROUND_UP(x, 8) from the C utility macros. -/
def roundUp8 (x : Nat) : Nat := ((x + 7) / 8) * 8

/-! ### OpenFlow 1.0 netmask and wildcard-bit-count conversion -/

/-- Number of 1-bits among the 32 low bits of a netmask. -/
def popcount32 (m : Nat) : Nat :=
  (List.range 32).countP (fun i => m.testBit i)

/-- Modelled from the spec: `ip_count_cidr_bits` lives in lib/packets.h,
which is not part of the sources; the doc comment of
`ofputil_netmask_to_wcbits` states the composition returns the number of
0-bits of the netmask, so the bit count here is the number of 1-bits among
the 32 netmask bits. -/
def ip_count_cidr_bits (netmask : Nat) : Nat := popcount32 netmask

/-- Body of `ofputil_wcbits_to_netmask` after the `wcbits &= 0x3f` step:
`wcbits < 32 ? htonl(~((1u << wcbits) - 1)) : 0`. -/
def netmaskOfMaskedWcbits (w : Nat) : Nat :=
  if w < 32 then 2 ^ 32 - 2 ^ w else 0

/-- `ofputil_wcbits_to_netmask` (lib/ofp-util.c): interprets the low 6 bits
of `wcbits` as a count of wildcarded least-significant address bits and
produces the corresponding IP netmask. -/
def ofputil_wcbits_to_netmask (wcbits : Nat) : Nat :=
  netmaskOfMaskedWcbits (wcbits &&& 0x3f)

/-- `ofputil_netmask_to_wcbits` (lib/ofp-util.c): the number of 0-bits of
the netmask, `32 - ip_count_cidr_bits(netmask)`. -/
def ofputil_netmask_to_wcbits (netmask : Nat) : Nat :=
  32 - ip_count_cidr_bits netmask

/-! ### Canonical match: flow, wildcards and cls_rule

`flow_wildcards_t` is a bit set manipulated one named FWW_* flag at a
time, so it becomes a structure with one `Bool` per flag (`true` means the
field is wildcarded).  The separately stored per-field masks keep their
`Nat` representation. -/

structure FwwBits where
  in_port : Bool
  dl_type : Bool
  nw_proto : Bool
  nw_dscp : Bool
  nw_ecn : Bool
  nw_ttl : Bool
  arp_sha : Bool
  arp_tha : Bool
  ipv6_label : Bool
  mpls_label : Bool
  mpls_tc : Bool
  mpls_stack : Bool
  vlan_tpid : Bool
  vlan_qinq_vid : Bool
  vlan_qinq_pcp : Bool
  deriving DecidableEq

/-- struct flow_wildcards (classifier.h), restricted to the members that
lib/ofp-util.c reads or writes. -/
structure FlowWildcards where
  wildcards : FwwBits
  tun_id_mask : Nat
  nw_src_mask : Nat
  nw_dst_mask : Nat
  reg_masks : List Nat
  vlan_tci_mask : Nat
  ipv6_src_mask : Nat
  ipv6_dst_mask : Nat
  nd_target_mask : Nat
  dl_src_mask : Nat
  dl_dst_mask : Nat
  tp_src_mask : Nat
  tp_dst_mask : Nat
  nw_frag_mask : Nat
  deriving DecidableEq

/-- struct flow (flow.h), restricted to the members that lib/ofp-util.c
reads or writes. -/
structure OvsFlow where
  tun_id : Nat
  in_port : Nat
  regs : List Nat
  dl_src : Nat
  dl_dst : Nat
  dl_type : Nat
  vlan_tci : Nat
  vlan_tpid : Nat
  vlan_qinq_tci : Nat
  nw_src : Nat
  nw_dst : Nat
  ipv6_src : Nat
  ipv6_dst : Nat
  ipv6_label : Nat
  nd_target : Nat
  mpls_label : Nat
  mpls_tc : Nat
  mpls_stack : Nat
  nw_proto : Nat
  nw_tos : Nat
  nw_ecn : Nat
  nw_ttl : Nat
  nw_frag : Nat
  arp_sha : Nat
  arp_tha : Nat
  tp_src : Nat
  tp_dst : Nat
  deriving DecidableEq

/-- struct cls_rule: a flow, its wildcards and a priority. -/
structure ClsRule where
  flow : OvsFlow
  wc : FlowWildcards
  priority : Nat
  deriving DecidableEq

/-- All flags set: every FWW_* field wildcarded. -/
def fwwAll : FwwBits :=
  ⟨true, true, true, true, true, true, true, true, true, true, true, true,
   true, true, true⟩

/-- `flow_wildcards_init_catchall`: every field wildcarded, every mask 0. -/
def flow_wildcards_init_catchall : FlowWildcards where
  wildcards := fwwAll
  tun_id_mask := 0
  nw_src_mask := 0
  nw_dst_mask := 0
  reg_masks := List.replicate FLOW_N_REGS 0
  vlan_tci_mask := 0
  ipv6_src_mask := 0
  ipv6_dst_mask := 0
  nd_target_mask := 0
  dl_src_mask := 0
  dl_dst_mask := 0
  tp_src_mask := 0
  tp_dst_mask := 0
  nw_frag_mask := 0

/-- Modelled from the spec: `cls_rule_zero_wildcarded_fields` (classifier.c,
not under the sources) zeroes every flow field bit that the wildcards mark
irrelevant, enforcing the canonical-match invariant that a field not
matched by the mask holds no stray value.  Masked fields are intersected
with their mask; FWW_*-guarded fields are zeroed when their flag is set. -/
def zeroWildcardedFlow (wc : FlowWildcards) (f : OvsFlow) : OvsFlow where
  tun_id := f.tun_id &&& wc.tun_id_mask
  in_port := if wc.wildcards.in_port then 0 else f.in_port
  regs := List.zipWith (· &&& ·) f.regs wc.reg_masks
  dl_src := f.dl_src &&& wc.dl_src_mask
  dl_dst := f.dl_dst &&& wc.dl_dst_mask
  dl_type := if wc.wildcards.dl_type then 0 else f.dl_type
  vlan_tci := f.vlan_tci &&& wc.vlan_tci_mask
  vlan_tpid := if wc.wildcards.vlan_tpid then 0 else f.vlan_tpid
  vlan_qinq_tci :=
    (if wc.wildcards.vlan_qinq_vid then
       f.vlan_qinq_tci &&& VLAN_PCP_MASK
     else f.vlan_qinq_tci) &&&
    (if wc.wildcards.vlan_qinq_pcp then VLAN_VID_MASK ||| VLAN_CFI
     else MASK16)
  nw_src := f.nw_src &&& wc.nw_src_mask
  nw_dst := f.nw_dst &&& wc.nw_dst_mask
  ipv6_src := f.ipv6_src &&& wc.ipv6_src_mask
  ipv6_dst := f.ipv6_dst &&& wc.ipv6_dst_mask
  ipv6_label := if wc.wildcards.ipv6_label then 0 else f.ipv6_label
  nd_target := f.nd_target &&& wc.nd_target_mask
  mpls_label := if wc.wildcards.mpls_label then 0 else f.mpls_label
  mpls_tc := if wc.wildcards.mpls_tc then 0 else f.mpls_tc
  mpls_stack := if wc.wildcards.mpls_stack then 0 else f.mpls_stack
  nw_proto := if wc.wildcards.nw_proto then 0 else f.nw_proto
  nw_tos := if wc.wildcards.nw_dscp then 0 else f.nw_tos
  nw_ecn := if wc.wildcards.nw_ecn then 0 else f.nw_ecn
  nw_ttl := if wc.wildcards.nw_ttl then 0 else f.nw_ttl
  nw_frag := f.nw_frag &&& wc.nw_frag_mask
  arp_sha := if wc.wildcards.arp_sha then 0 else f.arp_sha
  arp_tha := if wc.wildcards.arp_tha then 0 else f.arp_tha
  tp_src := f.tp_src &&& wc.tp_src_mask
  tp_dst := f.tp_dst &&& wc.tp_dst_mask

/-- `cls_rule_zero_wildcarded_fields` lifted to a rule (see
`zeroWildcardedFlow` for the modelling note). -/
def cls_rule_zero_wildcarded_fields (r : ClsRule) : ClsRule :=
  { r with flow := zeroWildcardedFlow r.wc r.flow }

/-! ### OpenFlow 1.0 match decoding -/

/-- struct ofp10_match: the fixed-size OpenFlow 1.0 bitmask match. -/
structure Ofp10Match where
  wildcards : Nat
  in_port : Nat
  dl_src : Nat
  dl_dst : Nat
  dl_vlan : Nat
  dl_vlan_pcp : Nat
  dl_type : Nat
  nw_tos : Nat
  nw_proto : Nat
  nw_src : Nat
  nw_dst : Nat
  tp_src : Nat
  tp_dst : Nat
  deriving DecidableEq

/-- `ofputil_dl_type_from_openflow`: maps the not-an-ethertype sentinel to
the internal none value (both 0x05ff here), other values unchanged. -/
def ofputil_dl_type_from_openflow (ofp_dl_type : Nat) : Nat :=
  if ofp_dl_type = OFP_DL_TYPE_NOT_ETH_TYPE then FLOW_DL_TYPE_NONE
  else ofp_dl_type

/-- `ofputil_dl_type_to_openflow`: the inverse mapping for encoding. -/
def ofputil_dl_type_to_openflow (flow_dl_type : Nat) : Nat :=
  if flow_dl_type = FLOW_DL_TYPE_NONE then OFP_DL_TYPE_NOT_ETH_TYPE
  else flow_dl_type

/-- `ofputil_wildcard_from_ofpfw10` (lib/ofp-util.c): converts OFPFW10_*
wildcard bits into a `FlowWildcards`.  Starts from catchall, keeps the
invariant bits (IN_PORT, DL_TYPE, NW_PROTO), unconditionally wildcards the
fields with no v1.0 wire representation, then fills the per-field masks. -/
def ofputil_wildcard_from_ofpfw10 (ofpfw : Nat) : FlowWildcards :=
  { flow_wildcards_init_catchall with
    wildcards :=
      { in_port := ofpfw.testBit 0
        dl_type := ofpfw.testBit 4
        nw_proto := ofpfw.testBit 5
        nw_dscp := ofpfw.testBit 21
        nw_ecn := true
        nw_ttl := true
        arp_sha := true
        arp_tha := true
        ipv6_label := true
        mpls_label := true
        mpls_tc := true
        mpls_stack := true
        vlan_tpid := true
        vlan_qinq_vid := true
        vlan_qinq_pcp := true }
    nw_src_mask := ofputil_wcbits_to_netmask (ofpfw >>> OFPFW10_NW_SRC_SHIFT)
    nw_dst_mask := ofputil_wcbits_to_netmask (ofpfw >>> OFPFW10_NW_DST_SHIFT)
    tp_src_mask := if ofpfw.testBit 6 then 0 else MASK16
    tp_dst_mask := if ofpfw.testBit 7 then 0 else MASK16
    dl_src_mask := if ofpfw.testBit 2 then 0 else MASK48
    dl_dst_mask := if ofpfw.testBit 3 then 0 else MASK48
    vlan_tci_mask :=
      (if ofpfw.testBit 20 then 0 else VLAN_PCP_MASK ||| VLAN_CFI) |||
      (if ofpfw.testBit 1 then 0 else VLAN_VID_MASK ||| VLAN_CFI) }

/-- `ofputil_cls_rule_from_ofp10_match` (lib/ofp-util.c): converts an
OpenFlow 1.0 match plus a priority into a cls_rule, with the special
priority rule for fully exact matches, the OFP10_VLAN_NONE compatibility
carve-out, and the final zeroing cleanup.  Flow fields that the v1.0 match
cannot carry start out zero. -/
def ofputil_cls_rule_from_ofp10_match (m : Ofp10Match) (priority : Nat) :
    ClsRule :=
  let ofpfw := m.wildcards &&& OFPFW10_ALL
  let wc := ofputil_wildcard_from_ofpfw10 ofpfw
  let vlanNone := ¬ ofpfw.testBit 1 ∧ m.dl_vlan = OFP10_VLAN_NONE
  let wc1 := if vlanNone then { wc with vlan_tci_mask := 0xffff } else wc
  let vlan_tci :=
    if vlanNone then 0
    else
      let vid := m.dl_vlan &&& VLAN_VID_MASK
      let pcp := (m.dl_vlan_pcp <<< VLAN_PCP_SHIFT) &&& VLAN_PCP_MASK
      (vid ||| pcp ||| VLAN_CFI) &&& wc.vlan_tci_mask
  let flow : OvsFlow :=
    { tun_id := 0
      in_port := m.in_port
      regs := List.replicate FLOW_N_REGS 0
      dl_src := m.dl_src
      dl_dst := m.dl_dst
      dl_type := ofputil_dl_type_from_openflow m.dl_type
      vlan_tci := vlan_tci
      vlan_tpid := 0
      vlan_qinq_tci := 0
      nw_src := m.nw_src
      nw_dst := m.nw_dst
      ipv6_src := 0
      ipv6_dst := 0
      ipv6_label := 0
      nd_target := 0
      mpls_label := 0
      mpls_tc := 0
      mpls_stack := 0
      nw_proto := m.nw_proto
      nw_tos := m.nw_tos &&& IP_DSCP_MASK
      nw_ecn := 0
      nw_ttl := 0
      nw_frag := 0
      arp_sha := 0
      arp_tha := 0
      tp_src := m.tp_src
      tp_dst := m.tp_dst }
  cls_rule_zero_wildcarded_fields
    { flow := flow
      wc := wc1
      priority := if ofpfw = 0 then 0xffff else priority }

/-! ### Rule normalization (`ofputil_normalize_rule`) -/

/-- The `may_match` flag set computed by `ofputil_normalize_rule`, one
`Bool` per MAY_* enum bit. -/
structure MayMatch where
  nw_addr : Bool
  tp_addr : Bool
  nw_proto : Bool
  ipvx : Bool
  arp_sha : Bool
  arp_tha : Bool
  ipv6 : Bool
  nd_target : Bool
  mpls : Bool
  vlan_qinq : Bool
  deriving DecidableEq

/-- No MAY_* flags. -/
def mayNone : MayMatch :=
  ⟨false, false, false, false, false, false, false, false, false, false⟩

/-- The field groups that a rule may match, derived from its own
`dl_type`, `nw_proto`, `tp_src`, `vlan_tpid` and `vlan_qinq_tci`, exactly
as decided in `ofputil_normalize_rule`. -/
def normalizeMayMatch (f : OvsFlow) : MayMatch :=
  if f.dl_type = ETH_TYPE_IP then
    { mayNone with
      nw_proto := true, ipvx := true, nw_addr := true,
      tp_addr := f.nw_proto == IPPROTO_TCP || f.nw_proto == IPPROTO_UDP ||
                 f.nw_proto == IPPROTO_ICMP }
  else if f.dl_type = ETH_TYPE_IPV6 then
    if f.nw_proto = IPPROTO_TCP ∨ f.nw_proto = IPPROTO_UDP then
      { mayNone with
        nw_proto := true, ipvx := true, ipv6 := true, tp_addr := true }
    else if f.nw_proto = IPPROTO_ICMPV6 then
      if f.tp_src = ND_NEIGHBOR_SOLICIT then
        { mayNone with
          nw_proto := true, ipvx := true, ipv6 := true,
          tp_addr := true, nd_target := true, arp_sha := true }
      else if f.tp_src = ND_NEIGHBOR_ADVERT then
        { mayNone with
          nw_proto := true, ipvx := true, ipv6 := true,
          tp_addr := true, nd_target := true, arp_tha := true }
      else
        { mayNone with
          nw_proto := true, ipvx := true, ipv6 := true, tp_addr := true }
    else
      { mayNone with nw_proto := true, ipvx := true, ipv6 := true }
  else if f.dl_type = ETH_TYPE_ARP then
    { mayNone with
      nw_proto := true, nw_addr := true, arp_sha := true, arp_tha := true }
  else if f.dl_type = ETH_TYPE_MPLS ∨ f.dl_type = ETH_TYPE_MPLS_MCAST then
    { mayNone with mpls := true }
  else if (f.vlan_tpid = ETH_TYPE_VLAN ∨ f.vlan_tpid = ETH_TYPE_VLAN_8021AD)
          ∧ f.vlan_qinq_tci ≠ 0 then
    { mayNone with vlan_qinq := true }
  else
    mayNone

/-- The wildcard-clearing step of `ofputil_normalize_rule`: every field
group outside `may` is force-wildcarded.  (The source has no clause for
MAY_VLAN_QINQ; none is added here.) -/
def normalizeClearWc (may : MayMatch) (wc : FlowWildcards) : FlowWildcards :=
  { wc with
    nw_src_mask := if may.nw_addr then wc.nw_src_mask else 0
    nw_dst_mask := if may.nw_addr then wc.nw_dst_mask else 0
    tp_src_mask := if may.tp_addr then wc.tp_src_mask else 0
    tp_dst_mask := if may.tp_addr then wc.tp_dst_mask else 0
    ipv6_src_mask := if may.ipv6 then wc.ipv6_src_mask else 0
    ipv6_dst_mask := if may.ipv6 then wc.ipv6_dst_mask else 0
    nd_target_mask := if may.nd_target then wc.nd_target_mask else 0
    wildcards :=
      { wc.wildcards with
        nw_proto := wc.wildcards.nw_proto || !may.nw_proto
        nw_dscp := wc.wildcards.nw_dscp || !may.ipvx
        nw_ecn := wc.wildcards.nw_ecn || !may.ipvx
        nw_ttl := wc.wildcards.nw_ttl || !may.ipvx
        arp_sha := wc.wildcards.arp_sha || !may.arp_sha
        arp_tha := wc.wildcards.arp_tha || !may.arp_tha
        ipv6_label := wc.wildcards.ipv6_label || !may.ipv6
        mpls_label := wc.wildcards.mpls_label || !may.mpls
        mpls_tc := wc.wildcards.mpls_tc || !may.mpls
        mpls_stack := wc.wildcards.mpls_stack || !may.mpls } }

/-- `ofputil_normalize_rule` (lib/ofp-util.c): clears the wildcard bits
that are meaningless for the protocol stack implied by the rule itself;
when anything changed, the updated rule has its newly wildcarded fields
zeroed (the logging side effect carries no state). -/
def ofputil_normalize_rule (r : ClsRule) : ClsRule :=
  let may := normalizeMayMatch r.flow
  let wc := normalizeClearWc may r.wc
  if wc = r.wc then r
  else cls_rule_zero_wildcarded_fields { r with wc := wc }

/-! ### Protocol capability resolver -/

/-- Protocol set bit values (enum ofputil_protocol, ofp-util.h is not under
the sources; the standard one-bit-per-dialect values are used: OF10, the
OF10 table-id extension, NXM, the NXM table-id extension and OF12). -/
def OFPUTIL_P_OF10 : Nat := 1 <<< 0
def OFPUTIL_P_OF10_TID : Nat := 1 <<< 1
def OFPUTIL_P_NXM : Nat := 1 <<< 2
def OFPUTIL_P_NXM_TID : Nat := 1 <<< 3
def OFPUTIL_P_OF12 : Nat := 1 <<< 4
def OFPUTIL_P_OF10_ANY : Nat := OFPUTIL_P_OF10 ||| OFPUTIL_P_OF10_TID
def OFPUTIL_P_NXM_ANY : Nat := OFPUTIL_P_NXM ||| OFPUTIL_P_NXM_TID
def OFPUTIL_P_TID : Nat := OFPUTIL_P_OF10_TID ||| OFPUTIL_P_NXM_TID
def OFPUTIL_P_ANY : Nat :=
  OFPUTIL_P_OF10_ANY ||| OFPUTIL_P_NXM_ANY ||| OFPUTIL_P_OF12

/-- `eth_mask_is_exact`: the 48-bit Ethernet mask is all ones. -/
def eth_mask_is_exact (mask : Nat) : Bool := mask == MASK48

/-- `eth_addr_is_zero`: the 48-bit Ethernet mask is all zeros. -/
def eth_addr_is_zero (mask : Nat) : Bool := mask == 0

/-- Modelled from the spec: `ip_is_cidr` (lib/packets.h, not under the
sources) checks that the 1-bits of the netmask are contiguous from the
most significant end: the complement plus one carries out cleanly. -/
def ip_is_cidr (netmask : Nat) : Bool :=
  let x := MASK32 - (netmask &&& MASK32)
  (x &&& (x + 1)) == 0

/-- `regs_fully_wildcarded` (lib/ofp-util.c): every register mask is 0. -/
def regs_fully_wildcarded (wc : FlowWildcards) : Bool :=
  wc.reg_masks.all (· == 0)

/-- The body of `ofputil_usable_protocols`, written on the wildcards and
the flow ethertype it reads. -/
def usableProtocolsOfWc (wc : FlowWildcards) (dl_type : Nat) : Nat :=
  if ¬ eth_mask_is_exact wc.dl_src_mask ∧ ¬ eth_addr_is_zero wc.dl_src_mask
  then OFPUTIL_P_NXM_ANY
  else if ¬ eth_mask_is_exact wc.dl_dst_mask ∧
          ¬ eth_addr_is_zero wc.dl_dst_mask then OFPUTIL_P_NXM_ANY
  else if ¬ wc.wildcards.arp_sha ∨ ¬ wc.wildcards.arp_tha then
    OFPUTIL_P_NXM_ANY
  else if ¬ wc.wildcards.dl_type ∧ dl_type = ETH_TYPE_IPV6 then
    OFPUTIL_P_NXM_ANY
  else if ¬ regs_fully_wildcarded wc then OFPUTIL_P_NXM_ANY
  else if wc.tun_id_mask ≠ 0 then OFPUTIL_P_NXM_ANY
  else if wc.nw_frag_mask ≠ 0 then OFPUTIL_P_NXM_ANY
  else if ¬ wc.wildcards.ipv6_label then OFPUTIL_P_NXM_ANY
  else if ¬ wc.wildcards.nw_ecn then OFPUTIL_P_NXM_ANY
  else if ¬ wc.wildcards.nw_ttl then OFPUTIL_P_NXM_ANY
  else if ¬ ip_is_cidr wc.nw_src_mask ∨ ¬ ip_is_cidr wc.nw_dst_mask then
    OFPUTIL_P_NXM_ANY
  else if (wc.tp_src_mask ≠ 0 ∧ wc.tp_src_mask ≠ MASK16) ∨
          (wc.tp_dst_mask ≠ 0 ∧ wc.tp_dst_mask ≠ MASK16) then
    OFPUTIL_P_NXM_ANY
  else if ¬ wc.wildcards.mpls_label then OFPUTIL_P_NXM_ANY
  else if ¬ wc.wildcards.mpls_tc then OFPUTIL_P_NXM_ANY
  else if ¬ wc.wildcards.mpls_stack then OFPUTIL_P_NXM_ANY
  else if ¬ wc.wildcards.vlan_tpid then OFPUTIL_P_NXM_ANY
  else if ¬ wc.wildcards.vlan_qinq_vid then OFPUTIL_P_NXM_ANY
  else if ¬ wc.wildcards.vlan_qinq_pcp then OFPUTIL_P_NXM_ANY
  else OFPUTIL_P_ANY

/-- `ofputil_usable_protocols` (lib/ofp-util.c): the protocol set able to
express a rule; the NXM family whenever any capability only NXM provides
is used, otherwise the full set. -/
def ofputil_usable_protocols (rule : ClsRule) : Nat :=
  usableProtocolsOfWc rule.wc rule.flow.dl_type


/-! ### Protocol transition state machine (`ofputil_encode_set_protocol`)

`ofputil_encode_set_protocol` and its helpers are only defined on the five
single-protocol values (any other input hits NOT_REACHED), so single
protocols become an inductive type; `ofputilProtocolBit` relates it to the
bitmask view. -/

inductive OfputilProtocol where
  | of10
  | of10_tid
  | nxm
  | nxm_tid
  | of12
  deriving DecidableEq

/-- The bitmask value of a single protocol. -/
def ofputilProtocolBit : OfputilProtocol → Nat
  | .of10 => OFPUTIL_P_OF10
  | .of10_tid => OFPUTIL_P_OF10_TID
  | .nxm => OFPUTIL_P_NXM
  | .nxm_tid => OFPUTIL_P_NXM_TID
  | .of12 => OFPUTIL_P_OF12

/-- `(protocol & OFPUTIL_P_TID) != 0` for a single protocol. -/
def ofputilProtocolHasTid : OfputilProtocol → Bool
  | .of10_tid => true
  | .nxm_tid => true
  | _ => false

/-- `ofputil_protocol_set_tid` (lib/ofp-util.c): turn the flow_mod_table_id
extension on or off; OF12 has no such extension and is returned
unchanged. -/
def ofputil_protocol_set_tid (protocol : OfputilProtocol) (enable : Bool) :
    OfputilProtocol :=
  match protocol with
  | .of10 | .of10_tid => if enable then .of10_tid else .of10
  | .nxm | .nxm_tid => if enable then .nxm_tid else .nxm
  | .of12 => .of12

/-- `ofputil_protocol_to_base`: strip the table-id extension. -/
def ofputil_protocol_to_base (protocol : OfputilProtocol) : OfputilProtocol :=
  ofputil_protocol_set_tid protocol false

/-- `ofputil_protocol_set_base`: the new base with the extensions of the
current protocol. -/
def ofputil_protocol_set_base (cur new_base : OfputilProtocol) :
    OfputilProtocol :=
  let tid := ofputilProtocolHasTid cur
  match new_base with
  | .of10 | .of10_tid => ofputil_protocol_set_tid .of10 tid
  | .nxm | .nxm_tid => ofputil_protocol_set_tid .nxm tid
  | .of12 => ofputil_protocol_set_tid .of12 tid

/-- enum nx_flow_format values. -/
inductive NxFlowFormat where
  | openflow10
  | nxm
  | openflow12
  deriving DecidableEq

/-- The two message kinds `ofputil_encode_set_protocol` can emit. -/
inductive SetProtocolMsg where
  | setFlowFormat (nxff : NxFlowFormat)
  | flowModTableId (set : Bool)
  deriving DecidableEq

/-- The message that switches to a base dialect (the NXT_SET_FLOW_FORMAT
switch of `ofputil_encode_set_protocol`); the table-id variants are
unreachable there (NOT_REACHED), represented by no message. -/
def setProtocolBaseMsg : OfputilProtocol → Option SetProtocolMsg
  | .nxm => some (.setFlowFormat .nxm)
  | .of10 => some (.setFlowFormat .openflow10)
  | .of12 => some (.setFlowFormat .openflow12)
  | .of10_tid | .nxm_tid => none

/-- `ofputil_encode_set_protocol` (lib/ofp-util.c): one transition step of
the dialect negotiation state machine.  Returns the message to send (none
when already at the target) and the protocol in effect once the switch
processes it. -/
def ofputil_encode_set_protocol (current want : OfputilProtocol) :
    Option SetProtocolMsg × OfputilProtocol :=
  let cur_base := ofputil_protocol_to_base current
  let want_base := ofputil_protocol_to_base want
  if cur_base ≠ want_base then
    (setProtocolBaseMsg want_base, ofputil_protocol_set_base current want_base)
  else
    let cur_tid := ofputilProtocolHasTid current
    let want_tid := ofputilProtocolHasTid want
    if cur_tid ≠ want_tid then
      (some (.flowModTableId want_tid), ofputil_protocol_set_tid current want_tid)
    else
      (none, current)

/-! ### Message type registry and classification -/

/-- Fixed wire header sizes (bytes), per the OpenFlow and Nicira struct
layouts: generic header 8; vendor header 12; nicira header 16; v1.0 stats
header 12, its vendor form 16, its Nicira form 24; v1.1 stats header 16,
its vendor form 20, its Nicira form 24. -/
def SIZEOF_OFP_HEADER : Nat := 8
def SIZEOF_OFP_VENDOR_HEADER : Nat := 12
def SIZEOF_NICIRA_HEADER : Nat := 16
def SIZEOF_OFP10_STATS_MSG : Nat := 12
def SIZEOF_OFP10_VENDOR_STATS_MSG : Nat := 16
def SIZEOF_NICIRA10_STATS_MSG : Nat := 24
def SIZEOF_OFP11_STATS_MSG : Nat := 16
def SIZEOF_OFP11_VENDOR_STATS_MSG : Nat := 20
def SIZEOF_NICIRA11_STATS_MSG : Nat := 24

/-- struct ofputil_raw_msg_type: the (version, type, stat, vendor, subtype)
key extracted from a message. -/
structure RawMsgType where
  version : Nat
  type : Nat
  stat : Nat
  vendor : Nat
  subtype : Nat
  deriving DecidableEq

/-- Symbolic OFPUTIL_* message codes used in this development (the enum
values themselves are internal; distinct numbers suffice). -/
def OFPUTIL_MSG_INVALID : Nat := 0
def OFPUTIL_OFPT10_FLOW_MOD : Nat := 10
def OFPUTIL_OFPT11_FLOW_MOD : Nat := 11
def OFPUTIL_NXT_FLOW_MOD : Nat := 12
def OFPUTIL_OFPST10_FLOW_REPLY : Nat := 20
def OFPUTIL_OFPST11_FLOW_REPLY : Nat := 21
def OFPUTIL_NXST_FLOW_REPLY : Nat := 22
def OFPUTIL_OFPT_ECHO_REQUEST : Nat := 30
def OFPUTIL_OFPT_ERROR : Nat := 31

/-- struct ofputil_msg_type: a registry row pairing a raw key with a
message code, a minimum total size and the size-extension rule
(`extra_multiple` 0 means exact, 1 means at-least, n means base plus a
multiple of n). -/
structure OfputilMsgType where
  code : Nat
  raw : RawMsgType
  min_size : Nat
  extra_multiple : Nat
  deriving DecidableEq

/-- `ofputil_invalid_type`: the sentinel stored for malformed messages. -/
def ofputil_invalid_type : OfputilMsgType :=
  { code := OFPUTIL_MSG_INVALID, raw := ⟨0, 0, 0, 0, 0⟩, min_size := 0,
    extra_multiple := 0 }

/-- `ofputil_decode_raw_msg_type` (lib/ofp-util.c): pull the raw message
key out of the first `length` available bytes, checking each nested header
size before reading its fields. -/
def ofputil_decode_raw_msg_type (mem : List Nat) (length : Nat) :
    Except Ofperr RawMsgType :=
  if length < SIZEOF_OFP_HEADER then .error .badLen
  else
    let version := byteAt mem 0
    let type := byteAt mem 1
    if type = OFPT_VENDOR then
      if length < SIZEOF_OFP_VENDOR_HEADER then .error .badLen
      else
        let vendor := be32At mem 8
        if vendor = NX_VENDOR_ID then
          if length < SIZEOF_NICIRA_HEADER then .error .badLen
          else .ok ⟨version, type, 0, vendor, be32At mem 12⟩
        else .error .badVendor
    else if version = OFP10_VERSION ∧
            (type = OFPT10_STATS_REQUEST ∨ type = OFPT10_STATS_REPLY) then
      if length < SIZEOF_OFP10_STATS_MSG then .error .badLen
      else
        let stat := be16At mem 8
        if stat = OFPST_VENDOR then
          if length < SIZEOF_OFP10_VENDOR_STATS_MSG then .error .badLen
          else
            let vendor := be32At mem 12
            if vendor = NX_VENDOR_ID then
              if length < SIZEOF_NICIRA10_STATS_MSG then .error .badLen
              else .ok ⟨version, type, stat, vendor, be32At mem 16⟩
            else .error .badVendor
        else .ok ⟨version, type, stat, 0, 0⟩
    else if (version = OFP11_VERSION ∨ version = OFP12_VERSION) ∧
            (type = OFPT11_STATS_REQUEST ∨ type = OFPT11_STATS_REPLY) then
      if length < SIZEOF_OFP11_STATS_MSG then .error .badLen
      else
        let stat := be16At mem 8
        if stat = OFPST_VENDOR then
          if length < SIZEOF_OFP11_VENDOR_STATS_MSG then .error .badLen
          else
            let vendor := be32At mem 16
            if vendor = NX_VENDOR_ID then
              if length < SIZEOF_NICIRA11_STATS_MSG then .error .badLen
              else .ok ⟨version, type, stat, vendor, be32At mem 20⟩
            else .error .badVendor
        else .ok ⟨version, type, stat, 0, 0⟩
    else .ok ⟨version, type, 0, 0, 0⟩

/-- `ofputil_check_length` (lib/ofp-util.c): validate the declared total
size against the size rule of a registry row. -/
def ofputil_check_length (t : OfputilMsgType) (size : Nat) : Option Ofperr :=
  if t.extra_multiple = 0 then
    if size ≠ t.min_size then some .badLen else none
  else if t.extra_multiple = 1 then
    if size < t.min_size then some .badLen else none
  else
    if size < t.min_size ∨ (size - t.min_size) % t.extra_multiple ≠ 0 then
      some .badLen
    else none

/-- `raw_msg_match` (lib/ofp-util.c): registry key comparison, where
version 0 in the row matches every version. -/
def raw_msg_match (want got : RawMsgType) : Bool :=
  (want.version == 0 || want.version == got.version) &&
  want.type == got.type && want.stat == got.stat &&
  want.vendor == got.vendor && want.subtype == got.subtype

/-- `ofputil_decode_msg_type__` (lib/ofp-util.c): raw key extraction plus
linear registry scan; the miss error depends on which optional field was
present.  The registry contents live in headers outside the sources, so
the table rows are passed in as `types`. -/
def ofputil_decode_msg_type__ (types : List OfputilMsgType)
    (mem : List Nat) (length : Nat) : Except Ofperr OfputilMsgType :=
  match ofputil_decode_raw_msg_type mem length with
  | .error e => .error e
  | .ok raw =>
    match types.find? (fun t => raw_msg_match t.raw raw) with
    | some t => .ok t
    | none =>
      .error (if raw.vendor ≠ 0 then .badSubtype
              else if raw.stat ≠ 0 then .badStat
              else .badType)

/-- `ofputil_decode_msg_type` (lib/ofp-util.c): full classification of a
complete message; the declared length is validated against the registry
row, and any failure stores the invalid-type sentinel.  The pair returned
is (error, stored type). -/
def ofputil_decode_msg_type (types : List OfputilMsgType) (mem : List Nat) :
    Option Ofperr × OfputilMsgType :=
  let length := be16At mem 2
  match ofputil_decode_msg_type__ types mem length with
  | .error e => (some e, ofputil_invalid_type)
  | .ok t =>
    match ofputil_check_length t length with
    | some e => (some e, ofputil_invalid_type)
    | none => (none, t)

/-- `ofputil_decode_msg_type_partial` (lib/ofp-util.c): classification of
a truncated buffer of which only `length` bytes are available; the
minimum-size rule is not enforced beyond the generic header. -/
def ofputil_decode_msg_type_partial_len (types : List OfputilMsgType)
    (mem : List Nat) (length : Nat) : Option Ofperr × OfputilMsgType :=
  let r := if SIZEOF_OFP_HEADER ≤ length then
             ofputil_decode_msg_type__ types mem length
           else .error .badLen
  match r with
  | .error e => (some e, ofputil_invalid_type)
  | .ok t => (none, t)

/-- `ofputil_msg_type_code`. -/
def ofputil_msg_type_code (t : OfputilMsgType) : Nat := t.code

/-! ### Shared helpers for the message translators -/

def be64At (mem : List Nat) (i : Nat) : Nat :=
  be32At mem i * 2 ^ 32 + be32At mem (i + 4)

/-- Read a 6-byte Ethernet address as one 48-bit value. -/
def eth48At (mem : List Nat) (i : Nat) : Nat :=
  ((((byteAt mem i * 256 + byteAt mem (i + 1)) * 256 + byteAt mem (i + 2))
      * 256 + byteAt mem (i + 3)) * 256 + byteAt mem (i + 4)) * 256
    + byteAt mem (i + 5)

/-- The all-zero flow. -/
def zeroOvsFlow : OvsFlow :=
  { tun_id := 0, in_port := 0, regs := List.replicate FLOW_N_REGS 0,
    dl_src := 0, dl_dst := 0, dl_type := 0, vlan_tci := 0, vlan_tpid := 0,
    vlan_qinq_tci := 0, nw_src := 0, nw_dst := 0, ipv6_src := 0,
    ipv6_dst := 0, ipv6_label := 0, nd_target := 0, mpls_label := 0,
    mpls_tc := 0, mpls_stack := 0, nw_proto := 0, nw_tos := 0, nw_ecn := 0,
    nw_ttl := 0, nw_frag := 0, arp_sha := 0, arp_tha := 0, tp_src := 0,
    tp_dst := 0 }

/-- `cls_rule_init_catchall`: an all-wildcard rule with a priority. -/
def cls_rule_init_catchall (priority : Nat) : ClsRule :=
  { flow := zeroOvsFlow, wc := flow_wildcards_init_catchall,
    priority := priority }

/-- Modelled from the spec: `ofputil_port_from_ofp11` (not under the
sources) narrows an OpenFlow 1.1 32-bit port number to the 16-bit space:
plain ports below the maximum pass through, reserved high ports map down
by the fixed offset, anything between is rejected. -/
def ofputil_port_from_ofp11 (ofp11_port : Nat) : Except Ofperr Nat :=
  if ofp11_port < 0xff00 then .ok ofp11_port
  else if 0xffffff00 ≤ ofp11_port then .ok (ofp11_port - 0xffff0000)
  else .error .badValue

/-! ### External collaborator contracts (action codec, NXM parser)

The Nicira extensible match parser (lib/nx-match.c) and the action codec
(lib/ofp-actions.c) are external collaborators of this core: their byte
ranges are delegated whole.  The translators therefore take them as
function arguments; `nx_pull_match_model` and `ofpacts_pull_model` are
executable instances for concrete evaluation. -/

/-- An NXM match parser: given the remaining bytes, the declared match
length and a priority, yields the decoded rule, the cookie and cookie
mask carried by the match, and the bytes left after the padded match. -/
def NxPullMatch : Type :=
  List Nat → Nat → Nat → Except Ofperr (ClsRule × Nat × Nat × List Nat)

/-- An action (or instruction) list puller: given the remaining bytes and
the byte count to consume, yields the pulled action bytes and the rest. -/
def PullActs : Type := List Nat → Nat → Except Ofperr (List Nat × List Nat)

/-- Modelled from the spec: `nx_pull_match` (lib/nx-match.c, not under the
sources) consumes the declared match length rounded up to 8-byte
alignment and produces a decoded rule; the per-TLV field decoding is
outside this core, so the rule produced here is the catchall rule at the
given priority with no cookie predicate. -/
def nx_pull_match_model : NxPullMatch := fun data match_len priority =>
  if roundUp8 match_len ≤ data.length then
    .ok (cls_rule_init_catchall priority, 0, 0, data.drop (roundUp8 match_len))
  else .error .badMatchLen

/-- Modelled from the spec: `ofpacts_pull_openflow10` and
`ofpacts_pull_openflow11_instructions` (lib/ofp-actions.c, not under the
sources) follow the pull contract: consume exactly the declared byte
count or fail. -/
def ofpacts_pull_model : PullActs := fun data len =>
  if len ≤ data.length then .ok (data.take len, data.drop len)
  else .error .badLen

/-! ### The v1.1/1.2 match envelope -/

def OFPMT_STANDARD : Nat := 0
def OFPMT_OXM : Nat := 1
def SIZEOF_OFP11_MATCH_HEADER : Nat := 4
def SIZEOF_OFP11_MATCH : Nat := 88

/-- `nx_padded_match_len`: padded length of a match of `len` bytes whose
envelope already used `ofs` bytes of the 8-byte alignment unit. -/
def nx_padded_match_len (len ofs : Nat) : Nat := roundUp8 (len + ofs) - ofs

/-- `ofputil_pull_ofp12_match` via `__ofputil_pull_ofp11_match`
(lib/ofp-util.c): validate the type+length envelope: only a STANDARD match
of exactly the expected struct size, or an OXM match (version floor 1.2,
which this entry point satisfies), is accepted.  The per-field body decode
of the STANDARD case (`ofputil_cls_rule_from_ofp11_match`) relies on
classifier helpers outside the sources and is abstracted to the catchall
rule; claims in this development exercise only the envelope behavior.
Returns the rule, the padded match length and the remaining bytes. -/
def ofputil_pull_ofp12_match (pull_nx : NxPullMatch) (data : List Nat)
    (priority : Nat) : Except Ofperr (ClsRule × Nat × List Nat) :=
  if data.length < SIZEOF_OFP11_MATCH_HEADER then .error .badMatchLen
  else
    let typ := be16At data 0
    let match_len := be16At data 2
    if typ = OFPMT_STANDARD then
      if match_len ≠ SIZEOF_OFP11_MATCH ∨ data.length < SIZEOF_OFP11_MATCH
      then .error .badMatchLen
      else .ok (cls_rule_init_catchall priority, match_len,
                data.drop SIZEOF_OFP11_MATCH)
    else if typ = OFPMT_OXM then
      let padded := nx_padded_match_len (match_len - SIZEOF_OFP11_MATCH_HEADER)
                      SIZEOF_OFP11_MATCH_HEADER + SIZEOF_OFP11_MATCH_HEADER
      match pull_nx (data.drop SIZEOF_OFP11_MATCH_HEADER)
              (match_len - SIZEOF_OFP11_MATCH_HEADER) priority with
      | .error e => .error e
      | .ok (rule, _, _, rest) => .ok (rule, padded, rest)
    else .error .badMatchType

/-! ### Stats message framing -/

def NXST_FLOW : Nat := 0
def NXST_AGGREGATE : Nat := 1
def OFPST_FLOW : Nat := 1

/-- `ofputil_stats_msg_len` (lib/ofp-util.c): the stats header length of a
message, decided by its stats type (at byte offset 8 in both layouts) and
version. -/
def ofputil_stats_msg_len (oh : List Nat) : Nat :=
  if be16At oh 8 = OFPST_VENDOR then
    if byteAt oh 0 = OFP10_VERSION then SIZEOF_NICIRA10_STATS_MSG
    else SIZEOF_NICIRA11_STATS_MSG
  else
    if byteAt oh 0 = OFP10_VERSION then SIZEOF_OFP10_STATS_MSG
    else SIZEOF_OFP11_STATS_MSG

/-- struct ofpbuf as used by the stats-reply iterator: the saved message
start (the `l2` pointer, null before the first call) and the unconsumed
byte suffix. -/
structure OfpbufMsg where
  l2 : Option (List Nat)
  data : List Nat
  deriving DecidableEq

/-! ### Flow stats reply decoding (iterator) -/

def SIZEOF_NX_FLOW_STATS : Nat := 48
def SIZEOF_OFP10_FLOW_STATS : Nat := 88
def SIZEOF_OFP11_FLOW_STATS : Nat := 48
def SIZEOF_OFP10_MATCH : Nat := 40

/-- Parse a struct ofp10_match at byte offset `i` of `mem`. -/
def ofp10_match_at (mem : List Nat) (i : Nat) : Ofp10Match :=
  { wildcards := be32At mem i
    in_port := be16At mem (i + 4)
    dl_src := eth48At mem (i + 6)
    dl_dst := eth48At mem (i + 12)
    dl_vlan := be16At mem (i + 18)
    dl_vlan_pcp := byteAt mem (i + 20)
    dl_type := be16At mem (i + 22)
    nw_tos := byteAt mem (i + 24)
    nw_proto := byteAt mem (i + 25)
    nw_src := be32At mem (i + 28)
    nw_dst := be32At mem (i + 32)
    tp_src := be16At mem (i + 36)
    tp_dst := be16At mem (i + 38) }

/-- struct ofputil_flow_stats: one decoded flow stats record. -/
structure OfputilFlowStats where
  rule : ClsRule
  cookie : Nat
  table_id : Nat
  duration_sec : Nat
  duration_nsec : Nat
  idle_timeout : Nat
  hard_timeout : Nat
  idle_age : Int
  hard_age : Int
  packet_count : Nat
  byte_count : Nat
  ofpacts : List Nat
  deriving DecidableEq

/-- The outcomes of one `ofputil_decode_flow_stats_reply` call: a decoded
record (return 0), the EOF iteration-finished signal, the EINVAL error, or
the NOT_REACHED abort for a message of the wrong type. -/
inductive FlowStatsReplyCode where
  | ok (fs : OfputilFlowStats)
  | eof
  | einval
  | notReached
  deriving DecidableEq

/-- `ofputil_decode_flow_stats_reply` (lib/ofp-util.c): pull one reply
record out of `st`.  On the first call (null `l2`) the stats header is
consumed and `l2` is made to remember the message start; once the body is
empty the call reports EOF.  Dispatches on the classified message code to
the v1.1/1.2, v1.0 or Nicira record layout. -/
def ofputil_decode_flow_stats_reply (types : List OfputilMsgType)
    (pull_nx : NxPullMatch) (pull_acts pull_insts : PullActs)
    (flow_age_extension : Bool) (st : OfpbufMsg) :
    FlowStatsReplyCode × OfpbufMsg :=
  let oh := st.l2.getD st.data
  let t := (ofputil_decode_msg_type types oh).2
  let code := ofputil_msg_type_code t
  let st1 : OfpbufMsg :=
    match st.l2 with
    | none => { l2 := some st.data,
                data := st.data.drop (ofputil_stats_msg_len st.data) }
    | some _ => st
  if st1.data.isEmpty then (.eof, st1)
  else if code = OFPUTIL_OFPST11_FLOW_REPLY then
    let d := st1.data
    if d.length < SIZEOF_OFP11_FLOW_STATS then (.einval, st1)
    else
      let length := be16At d 0
      let b1 := d.drop SIZEOF_OFP11_FLOW_STATS
      if length < SIZEOF_OFP11_FLOW_STATS then
        (.einval, { st1 with data := b1 })
      else
        match ofputil_pull_ofp12_match pull_nx b1 (be16At d 12) with
        | .error _ => (.einval, { st1 with data := b1 })
        | .ok (rule, padded_match_len, b2) =>
          if length < SIZEOF_OFP11_FLOW_STATS + padded_match_len then
            -- the C size_t subtraction underflows and the pull fails
            (.einval, { st1 with data := b2 })
          else
            match pull_insts b2
                    (length - SIZEOF_OFP11_FLOW_STATS - padded_match_len) with
            | .error _ => (.einval, { st1 with data := b2 })
            | .ok (acts, b3) =>
              (.ok { rule := rule
                     cookie := be64At d 24
                     table_id := byteAt d 2
                     duration_sec := be32At d 4
                     duration_nsec := be32At d 8
                     idle_timeout := be16At d 14
                     hard_timeout := be16At d 16
                     idle_age := -1
                     hard_age := -1
                     packet_count := be64At d 32
                     byte_count := be64At d 40
                     ofpacts := acts },
               { st1 with data := b3 })
  else if code = OFPUTIL_OFPST10_FLOW_REPLY then
    let d := st1.data
    if d.length < SIZEOF_OFP10_FLOW_STATS then (.einval, st1)
    else
      let length := be16At d 0
      let b1 := d.drop SIZEOF_OFP10_FLOW_STATS
      if length < SIZEOF_OFP10_FLOW_STATS then
        (.einval, { st1 with data := b1 })
      else
        match pull_acts b1 (length - SIZEOF_OFP10_FLOW_STATS) with
        | .error _ => (.einval, { st1 with data := b1 })
        | .ok (acts, b2) =>
          (.ok { rule := ofputil_cls_rule_from_ofp10_match
                           (ofp10_match_at d 4) (be16At d 52)
                 cookie := be64At d 64
                 table_id := byteAt d 2
                 duration_sec := be32At d 44
                 duration_nsec := be32At d 48
                 idle_timeout := be16At d 54
                 hard_timeout := be16At d 56
                 idle_age := -1
                 hard_age := -1
                 packet_count := be64At d 72
                 byte_count := be64At d 80
                 ofpacts := acts },
           { st1 with data := b2 })
  else if code = OFPUTIL_NXST_FLOW_REPLY then
    let d := st1.data
    if d.length < SIZEOF_NX_FLOW_STATS then (.einval, st1)
    else
      let length := be16At d 0
      let match_len := be16At d 18
      let b1 := d.drop SIZEOF_NX_FLOW_STATS
      if length < SIZEOF_NX_FLOW_STATS + roundUp8 match_len then
        (.einval, { st1 with data := b1 })
      else
        match pull_nx b1 match_len (be16At d 12) with
        | .error _ => (.einval, { st1 with data := b1 })
        | .ok (rule, _, _, b2) =>
          match pull_acts b2
                  (length - SIZEOF_NX_FLOW_STATS - roundUp8 match_len) with
          | .error _ => (.einval, { st1 with data := b2 })
          | .ok (acts, b3) =>
            (.ok { rule := rule
                   cookie := be64At d 24
                   table_id := byteAt d 2
                   duration_sec := be32At d 4
                   duration_nsec := be32At d 8
                   idle_timeout := be16At d 14
                   hard_timeout := be16At d 16
                   idle_age := if flow_age_extension ∧ be16At d 20 ≠ 0
                               then (be16At d 20 : Int) - 1 else -1
                   hard_age := if flow_age_extension ∧ be16At d 22 ≠ 0
                               then (be16At d 22 : Int) - 1 else -1
                   packet_count := be64At d 32
                   byte_count := be64At d 40
                   ofpacts := acts },
             { st1 with data := b3 })
  else (.notReached, st1)

/-! ### Flow mod decoding -/

def OFPFC_ADD : Nat := 0
def OFPG_ANY : Nat := 0xffffffff
def UINT64_MAX : Nat := 2 ^ 64 - 1
def SIZEOF_OFP10_FLOW_MOD : Nat := 72
def SIZEOF_OFP11_FLOW_MOD : Nat := 48
def SIZEOF_NX_FLOW_MOD : Nat := 48

/-- struct ofputil_flow_mod: the abstract flow table modification. -/
structure OfputilFlowMod where
  cr : ClsRule
  cookie : Nat
  cookie_mask : Nat
  new_cookie : Nat
  table_id : Nat
  command : Nat
  idle_timeout : Nat
  hard_timeout : Nat
  buffer_id : Nat
  out_port : Nat
  flags : Nat
  ofpacts : List Nat
  deriving DecidableEq

/-- The outcomes of `ofputil_decode_flow_mod`: a decoded flow mod, an
OpenFlow error, or the NOT_REACHED abort on a message that is not a
flow mod at all. -/
inductive FlowModResult where
  | ok (fm : OfputilFlowMod)
  | err (e : Ofperr)
  | notReached
  deriving DecidableEq

/-- `ofputil_decode_flow_mod` (lib/ofp-util.c): convert an OFPT_FLOW_MOD
(v1.0 or v1.1/1.2) or NXT_FLOW_MOD message into an abstract flow mod.
`protocol` is the negotiated protocol bitmask; only its table-id extension
bit is consulted.  The v1.0 path re-derives the priority from the original
wildcards and normalizes the rule; the Nicira path rejects an ADD command
that carries a cookie match; the v1.0 and Nicira paths unpack table id
from the command high byte when the extension is on. -/
def ofputil_decode_flow_mod (types : List OfputilMsgType)
    (pull_nx : NxPullMatch) (pull_acts pull_insts : PullActs)
    (mem : List Nat) (protocol : Nat) : FlowModResult :=
  let t := (ofputil_decode_msg_type types mem).2
  let code := ofputil_msg_type_code t
  if code = OFPUTIL_OFPT11_FLOW_MOD then
    let b1 := mem.drop SIZEOF_OFP11_FLOW_MOD
    match ofputil_pull_ofp12_match pull_nx b1 (be16At mem 30) with
    | .error e => .err e
    | .ok (cr, _, b2) =>
      match pull_insts b2 b2.length with
      | .error e => .err e
      | .ok (acts, _) =>
        let command := byteAt mem 25
        let cookie := if command = OFPFC_ADD then 0 else be64At mem 8
        let cookie_mask := if command = OFPFC_ADD then 0 else be64At mem 16
        let new_cookie := if command = OFPFC_ADD then be64At mem 8
                          else UINT64_MAX
        match ofputil_port_from_ofp11 (be32At mem 36) with
        | .error e => .err e
        | .ok out_port =>
          if be32At mem 40 ≠ OFPG_ANY then .err .groupsNotSupported
          else
            .ok { cr := cr, cookie := cookie, cookie_mask := cookie_mask,
                  new_cookie := new_cookie, table_id := byteAt mem 24,
                  command := command, idle_timeout := be16At mem 26,
                  hard_timeout := be16At mem 28, buffer_id := be32At mem 32,
                  out_port := out_port, flags := be16At mem 44,
                  ofpacts := acts }
  else if code = OFPUTIL_OFPT10_FLOW_MOD then
    let m := ofp10_match_at mem 8
    let priority := if m.wildcards &&& OFPFW10_ALL = 0 then 0xffff
                    else be16At mem 62
    let cr := ofputil_normalize_rule
                (ofputil_cls_rule_from_ofp10_match m priority)
    let b1 := mem.drop SIZEOF_OFP10_FLOW_MOD
    match pull_acts b1 b1.length with
    | .error e => .err e
    | .ok (acts, _) =>
      let command := be16At mem 56
      let tid := protocol &&& OFPUTIL_P_TID ≠ 0
      .ok { cr := cr, cookie := 0, cookie_mask := 0,
            new_cookie := be64At mem 48,
            table_id := if tid then command >>> 8 else 0xff,
            command := if tid then command &&& 0xff else command,
            idle_timeout := be16At mem 58, hard_timeout := be16At mem 60,
            buffer_id := be32At mem 64, out_port := be16At mem 68,
            flags := be16At mem 70, ofpacts := acts }
  else if code = OFPUTIL_NXT_FLOW_MOD then
    let b1 := mem.drop SIZEOF_NX_FLOW_MOD
    match pull_nx b1 (be16At mem 40) (be16At mem 30) with
    | .error e => .err e
    | .ok (cr, cookie, cookie_mask, b2) =>
      match pull_acts b2 b2.length with
      | .error e => .err e
      | .ok (acts, _) =>
        let command := be16At mem 24
        if command &&& 0xff = OFPFC_ADD ∧ cookie_mask ≠ 0 then
          .err .nxmInvalid
        else
          let tid := protocol &&& OFPUTIL_P_TID ≠ 0
          .ok { cr := cr, cookie := cookie, cookie_mask := cookie_mask,
                new_cookie := be64At mem 16,
                table_id := if tid then command >>> 8 else 0xff,
                command := if tid then command &&& 0xff else command,
                idle_timeout := be16At mem 26, hard_timeout := be16At mem 28,
                buffer_id := be32At mem 32, out_port := be16At mem 36,
                flags := be16At mem 38, ofpacts := acts }
  else .notReached

/-! ### Registry rows used for concrete evaluation

The registry initializer takes its sizes from wire struct declarations in
headers outside the sources; these rows mirror specific lines of the
`ofputil_msg_types` table with the standard struct sizes. -/

/-- Wire type numbers of the messages used below. -/
def OFPT_ERROR : Nat := 1
def OFPT_ECHO_REQUEST : Nat := 2
def OFPT10_FLOW_MOD : Nat := 14
def NXT_FLOW_MOD : Nat := 13

/-- Row `OFPT(ERROR, 0, sizeof(struct ofp_error_msg), 1)`: any version. -/
def msgTypeError : OfputilMsgType :=
  { code := OFPUTIL_OFPT_ERROR, raw := ⟨0, OFPT_ERROR, 0, 0, 0⟩,
    min_size := 12, extra_multiple := 1 }

/-- Row `OFPT10(OFPT_ECHO_REQUEST, ..., sizeof(struct ofp_header), 1)`. -/
def msgTypeEchoRequest : OfputilMsgType :=
  { code := OFPUTIL_OFPT_ECHO_REQUEST,
    raw := ⟨OFP10_VERSION, OFPT_ECHO_REQUEST, 0, 0, 0⟩,
    min_size := SIZEOF_OFP_HEADER, extra_multiple := 1 }

/-- Row `OFPT10(OFPT10_FLOW_MOD, ..., sizeof(struct ofp10_flow_mod), 1)`. -/
def msgTypeOfpt10FlowMod : OfputilMsgType :=
  { code := OFPUTIL_OFPT10_FLOW_MOD,
    raw := ⟨OFP10_VERSION, OFPT10_FLOW_MOD, 0, 0, 0⟩,
    min_size := SIZEOF_OFP10_FLOW_MOD, extra_multiple := 1 }

/-- Row `NXT(FLOW_MOD, sizeof(struct nx_flow_mod), 8)`. -/
def msgTypeNxtFlowMod : OfputilMsgType :=
  { code := OFPUTIL_NXT_FLOW_MOD,
    raw := ⟨OFP10_VERSION, OFPT_VENDOR, 0, NX_VENDOR_ID, NXT_FLOW_MOD⟩,
    min_size := SIZEOF_NX_FLOW_MOD, extra_multiple := 8 }

/-- Row `NXST_REPLY(FLOW, 0, 8)`. -/
def msgTypeNxstFlowReply : OfputilMsgType :=
  { code := OFPUTIL_NXST_FLOW_REPLY,
    raw := ⟨OFP10_VERSION, OFPT10_STATS_REPLY, OFPST_VENDOR, NX_VENDOR_ID,
            NXST_FLOW⟩,
    min_size := SIZEOF_NICIRA10_STATS_MSG, extra_multiple := 8 }

/-! ### Concrete inputs and observers used by the claim theorems -/

/-- A v1.0 match with the VID wildcarded (OFPFW10_DL_VLAN set), the PCP
matched exactly (OFPFW10_DL_VLAN_PCP clear) with value 3. -/
def c1Match : Ofp10Match :=
  { wildcards := OFPFW10_DL_VLAN, in_port := 7, dl_src := 5, dl_dst := 6,
    dl_vlan := 0x123, dl_vlan_pcp := 3, dl_type := 0x0800, nw_tos := 0,
    nw_proto := 6, nw_src := 0, nw_dst := 0, tp_src := 80, tp_dst := 443 }

/-- A concrete OpenFlow 1.0 flow_mod message: DL_TYPE wildcarded (so the
match is not fully exact) and wire priority 0x1234. -/
def c9msg : List Nat :=
  [1, 14, 0, 72, 0, 0, 0, 0, 0, 0, 0, 0x10] ++ List.replicate 50 0 ++
  [0x12, 0x34] ++ List.replicate 8 0

/-- The flow mod decoded from `c9msg`. -/
def c9fm : OfputilFlowMod :=
  match ofputil_decode_flow_mod [msgTypeOfpt10FlowMod] nx_pull_match_model
          ofpacts_pull_model ofpacts_pull_model c9msg 0 with
  | .ok fm => fm
  | _ => { cr := cls_rule_init_catchall 0, cookie := 0, cookie_mask := 0,
           new_cookie := 0, table_id := 0, command := 0, idle_timeout := 0,
           hard_timeout := 0, buffer_id := 0, out_port := 0, flags := 0,
           ofpacts := [] }

/-- A concrete NXT_FLOW_MOD message: command 0 (OFPFC_ADD), match_len 8,
followed by 8 match bytes. -/
def c10msg : List Nat :=
  [1, 4, 0, 56, 0, 0, 0, 0, 0, 0, 0x23, 0x20, 0, 0, 0, 13] ++
  List.replicate 24 0 ++ [0, 8] ++ List.replicate 14 0

/-- A concrete NXM parser outcome whose match carries a cookie mask of 5,
as for a match stream holding an NXM_NX_COOKIE entry. -/
def c10PullNx : NxPullMatch := fun data match_len priority =>
  if roundUp8 match_len ≤ data.length then
    .ok (cls_rule_init_catchall priority, 0, 5, data.drop (roundUp8 match_len))
  else .error .badMatchLen

/-- The size rule as the specification states it: an exact entry requires
the length to equal the minimum; an at-least entry requires at least the
minimum; a base-plus-multiple entry requires the length to exceed the
minimum by a multiple (possibly zero) of the extra-unit size. -/
def sizeRuleViolated (t : OfputilMsgType) (length : Nat) : Prop :=
  (t.extra_multiple = 0 ∧ length ≠ t.min_size) ∨
  (t.extra_multiple = 1 ∧ length < t.min_size) ∨
  (2 ≤ t.extra_multiple ∧
    ¬ (t.min_size ≤ length ∧ (length - t.min_size) % t.extra_multiple = 0))

instance (t : OfputilMsgType) (L : Nat) : Decidable (sizeRuleViolated t L) := by
  unfold sizeRuleViolated
  infer_instance

/-- A concrete v1.0 echo request message of declared length 8. -/
def c2msg : List Nat := [1, 2, 0, 8, 0, 0, 0, 0]

/-- Success observer for an iterator step. -/
def FlowStatsReplyCode.isOk : FlowStatsReplyCode → Bool
  | .ok _ => true
  | _ => false

/-- One well-formed packed Nicira flow-stats record: length 48,
match_len 0, no actions. -/
def c8record : List Nat := [0, 48] ++ List.replicate 46 0

/-- An NXST_FLOW reply message holding exactly two packed records. -/
def c8msg : List Nat :=
  [1, 17, 0, 120, 0, 0, 0, 0, 0xff, 0xff, 0, 0, 0, 0, 0x23, 0x20,
   0, 0, 0, 0, 0, 0, 0, 0] ++ c8record ++ c8record

/-- A rule that is inconsistent with its wildcards: dl_type is wildcarded
yet holds the IPv4 ethertype, the source netmask is exact, and a stray
IPv6 source mask forces the first normalization to rewrite the rule. -/
def c5rule : ClsRule :=
  { flow := { zeroOvsFlow with dl_type := ETH_TYPE_IP },
    wc := { flow_wildcards_init_catchall with
            nw_src_mask := 0xffffffff, ipv6_src_mask := 1 },
    priority := 1 }

/-- A consistent TCP/IPv4 rule: every matched field is inside its mask. -/
def c5consistent : ClsRule :=
  { flow := { zeroOvsFlow with
              dl_type := ETH_TYPE_IP, nw_src := 0x0a000001,
              nw_proto := 6, tp_src := 80 },
    wc := { flow_wildcards_init_catchall with
            wildcards := { fwwAll with
                           dl_type := false, nw_proto := false },
            nw_src_mask := 0xffffffff, tp_src_mask := 0xffff },
    priority := 3 }

/-! ## Claim theorems -/



/-- C3: for every wildcard bit-count c in [0,32],
`ofputil_netmask_to_wcbits (ofputil_wcbits_to_netmask c) = c`; and for
every c > 32 the composition behaves as first reducing c modulo 64
(c &&& 0x3f) and then saturating the result to 32. -/
theorem netmask_wcbits_roundtrip :
    (∀ c : Nat, c ≤ 32 →
      ofputil_netmask_to_wcbits (ofputil_wcbits_to_netmask c) = c) ∧
    (∀ c : Nat, 32 < c →
      ofputil_netmask_to_wcbits (ofputil_wcbits_to_netmask c) =
        min (c &&& 0x3f) 32) := by
  have hball : ∀ m, m < 64 →
      ofputil_netmask_to_wcbits (netmaskOfMaskedWcbits m) = min m 32 := by
    decide
  have hmask : ∀ c : Nat, c &&& 0x3f < 64 :=
    fun c => Nat.lt_succ_of_le Nat.and_le_right
  constructor
  · intro c hc
    have h1 : c &&& 0x3f = c := by
      have h2 := Nat.and_pow_two_sub_one_eq_mod c 6
      norm_num at h2
      rw [h2, Nat.mod_eq_of_lt (by omega)]
    have h3 := hball (c &&& 0x3f) (hmask c)
    rw [h1] at h3
    rw [ofputil_wcbits_to_netmask, h1, h3]
    omega
  · intro c _
    have h3 := hball (c &&& 0x3f) (hmask c)
    rw [ofputil_wcbits_to_netmask, h3]

/-- C3 witness: the round trip evaluated at the concrete counts 24
and 40. -/
theorem netmask_wcbits_roundtrip_witness :
    ofputil_netmask_to_wcbits (ofputil_wcbits_to_netmask 24) = 24 ∧
    ofputil_netmask_to_wcbits (ofputil_wcbits_to_netmask 40) =
      min (40 &&& 0x3f) 32 :=
  ⟨netmask_wcbits_roundtrip.1 24 (by norm_num),
   netmask_wcbits_roundtrip.2 40 (by norm_num)⟩

/-- C1 counterexample: decoding a VLAN-tagged v1.0 match with wildcarded
VID and exact PCP 3 yields `vlan_tci = (3<<13)|CFI` as claimed, but the
mask is not PCP-bits-only: the CFI bit is set in it as well. -/
theorem ofp10_vlan_pcp_decode_counterexample :
    (ofputil_cls_rule_from_ofp10_match c1Match 5).flow.vlan_tci =
      (3 <<< VLAN_PCP_SHIFT) ||| VLAN_CFI ∧
    (ofputil_cls_rule_from_ofp10_match c1Match 5).wc.vlan_tci_mask ≠
      VLAN_PCP_MASK ∧
    (ofputil_cls_rule_from_ofp10_match c1Match 5).wc.vlan_tci_mask &&&
      VLAN_CFI ≠ 0 := by
  decide

/-- C1 (amended): for every v1.0 match with OFPFW10_DL_VLAN set,
OFPFW10_DL_VLAN_PCP clear and PCP value 3, decoding yields
`vlan_tci = (3<<13)|CFI` and `vlan_tci_mask` covering exactly the PCP
bits plus the CFI bit (no VID bits). -/
theorem ofp10_vlan_pcp_decode :
    ∀ (m : Ofp10Match) (priority : Nat),
    m.wildcards.testBit 1 = true →
    m.wildcards.testBit 20 = false →
    m.dl_vlan_pcp = 3 →
    (ofputil_cls_rule_from_ofp10_match m priority).flow.vlan_tci =
      (3 <<< VLAN_PCP_SHIFT) ||| VLAN_CFI ∧
    (ofputil_cls_rule_from_ofp10_match m priority).wc.vlan_tci_mask =
      VLAN_PCP_MASK ||| VLAN_CFI := by
  intro m priority h1 h20 hpcp
  have hofp1 : (m.wildcards &&& OFPFW10_ALL).testBit 1 = true := by
    rw [Nat.testBit_and, h1]; decide
  have hofp20 : (m.wildcards &&& OFPFW10_ALL).testBit 20 = false := by
    rw [Nat.testBit_and, h20]; decide
  simp only [ofputil_cls_rule_from_ofp10_match, cls_rule_zero_wildcarded_fields,
             zeroWildcardedFlow, ofputil_wildcard_from_ofpfw10,
             flow_wildcards_init_catchall, hofp1, hofp20, hpcp,
             not_true, false_and, if_false, if_true, Bool.false_eq_true,
             ite_false, ite_true]
  constructor
  · rw [Nat.and_assoc,
        show ((VLAN_PCP_MASK ||| VLAN_CFI) ||| 0) &&&
             ((VLAN_PCP_MASK ||| VLAN_CFI) ||| 0) = 0xf000 from by decide,
        Nat.and_distrib_right, Nat.and_distrib_right, Nat.and_assoc,
        show VLAN_VID_MASK &&& (0xf000 : Nat) = 0 from by decide,
        Nat.and_zero]
    decide
  · decide

/-- C1 witness: the amended theorem applied at the concrete match. -/
theorem ofp10_vlan_pcp_decode_witness :
    (ofputil_cls_rule_from_ofp10_match c1Match 5).flow.vlan_tci =
      (3 <<< VLAN_PCP_SHIFT) ||| VLAN_CFI ∧
    (ofputil_cls_rule_from_ofp10_match c1Match 5).wc.vlan_tci_mask =
      VLAN_PCP_MASK ||| VLAN_CFI :=
  ofp10_vlan_pcp_decode c1Match 5 (by decide) (by decide) rfl

/-- Helper: each early return of `usableProtocolsOfWc` yields the NXM
family, so the two-constant property passes through every if. -/
theorem usableAux (c : Prop) [Decidable c] {b : Nat}
    (hb : b = OFPUTIL_P_ANY ∨ b = OFPUTIL_P_NXM_ANY) :
    (if c then OFPUTIL_P_NXM_ANY else b) = OFPUTIL_P_ANY ∨
    (if c then OFPUTIL_P_NXM_ANY else b) = OFPUTIL_P_NXM_ANY := by
  by_cases h : c
  · rw [if_pos h]; exact Or.inr rfl
  · rw [if_neg h]; exact hb

/-- C6: `ofputil_usable_protocols` never returns the empty set: every
return value is the full set OFPUTIL_P_ANY or the non-empty NXM family
OFPUTIL_P_NXM_ANY. -/
theorem usable_protocols_nonempty :
    ∀ r : ClsRule,
    (ofputil_usable_protocols r = OFPUTIL_P_ANY ∨
     ofputil_usable_protocols r = OFPUTIL_P_NXM_ANY) ∧
    ofputil_usable_protocols r ≠ 0 := by
  intro r
  have h : ofputil_usable_protocols r = OFPUTIL_P_ANY ∨
      ofputil_usable_protocols r = OFPUTIL_P_NXM_ANY := by
    unfold ofputil_usable_protocols usableProtocolsOfWc
    iterate 18 apply usableAux
    exact Or.inl rfl
  refine ⟨h, ?_⟩
  rcases h with h | h <;> rw [h] <;> decide

/-- C4: for every pair of valid (single) protocols, iterating
`ofputil_encode_set_protocol` reaches `next = want` in at most two calls,
and a call with `current = want` returns no message and stores `current`
in `next`. -/
theorem encode_set_protocol_converges :
    ∀ current want : OfputilProtocol,
    (ofputil_encode_set_protocol
       (ofputil_encode_set_protocol current want).2 want).2 = want ∧
    ofputil_encode_set_protocol current current = (none, current) := by
  intro current want
  constructor
  · cases current <;> cases want <;> rfl
  · cases current <;> rfl

/-- Normalization never touches the priority. -/
theorem normalize_rule_priority (r : ClsRule) :
    (ofputil_normalize_rule r).priority = r.priority := by
  simp only [ofputil_normalize_rule, cls_rule_zero_wildcarded_fields]
  split <;> rfl

/-- The priority stored by `ofputil_cls_rule_from_ofp10_match`. -/
theorem cls_rule_from_ofp10_match_priority (m : Ofp10Match) (p : Nat) :
    (ofputil_cls_rule_from_ofp10_match m p).priority =
      if m.wildcards &&& OFPFW10_ALL = 0 then 0xffff else p := rfl

/-- C9: a v1.0 match whose wildcards masked to OFPFW10_ALL are zero (a
fully exact match) decodes with priority 65535 regardless of the supplied
priority, both in `ofputil_cls_rule_from_ofp10_match` and on the
OpenFlow 1.0 path of `ofputil_decode_flow_mod`; a non-zero masked
wildcard field keeps the supplied (wire) priority. -/
theorem ofp10_exact_match_priority :
    (∀ (m : Ofp10Match) (priority : Nat),
      (ofputil_cls_rule_from_ofp10_match m priority).priority =
        if m.wildcards &&& OFPFW10_ALL = 0 then 0xffff else priority) ∧
    (∀ (types : List OfputilMsgType) (pull_nx : NxPullMatch)
       (pull_acts pull_insts : PullActs) (mem : List Nat) (protocol : Nat)
       (fm : OfputilFlowMod),
      (ofputil_decode_msg_type types mem).2.code = OFPUTIL_OFPT10_FLOW_MOD →
      ofputil_decode_flow_mod types pull_nx pull_acts pull_insts mem
        protocol = .ok fm →
      fm.cr.priority =
        if (ofp10_match_at mem 8).wildcards &&& OFPFW10_ALL = 0 then 0xffff
        else be16At mem 62) := by
  constructor
  · intro m priority
    rfl
  · intro types pull_nx pull_acts pull_insts mem protocol fm hcode hdec
    simp only [ofputil_decode_flow_mod, ofputil_msg_type_code] at hdec
    rw [hcode] at hdec
    rw [if_neg (by decide :
          ¬ (OFPUTIL_OFPT10_FLOW_MOD = OFPUTIL_OFPT11_FLOW_MOD)),
        if_pos rfl] at hdec
    cases hpa : pull_acts (mem.drop SIZEOF_OFP10_FLOW_MOD)
        (mem.drop SIZEOF_OFP10_FLOW_MOD).length with
    | error e =>
      rw [hpa] at hdec
      exact absurd hdec (by simp)
    | ok p =>
      obtain ⟨acts, rest⟩ := p
      rw [hpa] at hdec
      simp only [FlowModResult.ok.injEq] at hdec
      subst hdec
      simp only [normalize_rule_priority, cls_rule_from_ofp10_match_priority]
      by_cases hc : (ofp10_match_at mem 8).wildcards &&& OFPFW10_ALL = 0 <;>
        simp [hc]

/-- C9 witness: both parts applied at concrete inputs. -/
theorem ofp10_exact_match_priority_witness :
    ((ofputil_cls_rule_from_ofp10_match c1Match 5).priority =
      if c1Match.wildcards &&& OFPFW10_ALL = 0 then 0xffff else 5) ∧
    c9fm.cr.priority =
      (if (ofp10_match_at c9msg 8).wildcards &&& OFPFW10_ALL = 0 then 0xffff
       else be16At c9msg 62) :=
  ⟨ofp10_exact_match_priority.1 c1Match 5,
   ofp10_exact_match_priority.2 [msgTypeOfpt10FlowMod] nx_pull_match_model
     ofpacts_pull_model ofpacts_pull_model c9msg 0 c9fm (by decide)
     (by decide)⟩

/-- C10: an NXT_FLOW_MOD whose command low byte is OFPFC_ADD and whose
NXM match yields a non-zero cookie mask is rejected with
OFPERR_NXBRC_NXM_INVALID (a flow addition may only set a new cookie,
never match an existing one). -/
theorem nxt_flow_mod_add_cookie_mask_rejected :
    ∀ (types : List OfputilMsgType) (pull_nx : NxPullMatch)
      (pull_acts pull_insts : PullActs) (mem : List Nat) (protocol : Nat)
      (cr : ClsRule) (cookie cookie_mask : Nat) (rest acts rest2 : List Nat),
    (ofputil_decode_msg_type types mem).2.code = OFPUTIL_NXT_FLOW_MOD →
    pull_nx (mem.drop SIZEOF_NX_FLOW_MOD) (be16At mem 40) (be16At mem 30) =
      .ok (cr, cookie, cookie_mask, rest) →
    pull_acts rest rest.length = .ok (acts, rest2) →
    be16At mem 24 &&& 0xff = OFPFC_ADD →
    cookie_mask ≠ 0 →
    ofputil_decode_flow_mod types pull_nx pull_acts pull_insts mem protocol =
      .err .nxmInvalid := by
  intro types pull_nx pull_acts pull_insts mem protocol cr cookie cookie_mask
    rest acts rest2 hcode hpull hpacts hcmd hcm
  simp only [ofputil_decode_flow_mod, ofputil_msg_type_code, hcode]
  rw [if_neg (by decide : ¬ (OFPUTIL_NXT_FLOW_MOD = OFPUTIL_OFPT11_FLOW_MOD)),
      if_neg (by decide : ¬ (OFPUTIL_NXT_FLOW_MOD = OFPUTIL_OFPT10_FLOW_MOD))]
  simp only [eq_self_iff_true, if_true, hpull, hpacts]
  rw [if_pos (show be16At mem 24 &&& 0xff = OFPFC_ADD ∧ cookie_mask ≠ 0 from
        ⟨hcmd, hcm⟩)]

/-- C10 witness: the rejection applied at the concrete message. -/
theorem nxt_flow_mod_add_cookie_mask_rejected_witness :
    ofputil_decode_flow_mod [msgTypeNxtFlowMod] c10PullNx ofpacts_pull_model
      ofpacts_pull_model c10msg 0 = .err .nxmInvalid :=
  nxt_flow_mod_add_cookie_mask_rejected [msgTypeNxtFlowMod] c10PullNx
    ofpacts_pull_model ofpacts_pull_model c10msg 0
    (cls_rule_init_catchall 0) 0 5 [] [] [] (by decide) rfl
    rfl (by decide) (by decide)

/-- `ofputil_check_length` implements exactly the size rule of the spec. -/
theorem check_length_eq (t : OfputilMsgType) (L : Nat) :
    ofputil_check_length t L =
      if sizeRuleViolated t L then some Ofperr.badLen else none := by
  unfold ofputil_check_length
  by_cases h0 : t.extra_multiple = 0
  · rw [if_pos h0]
    by_cases hL : L ≠ t.min_size
    · rw [if_pos hL, if_pos (show sizeRuleViolated t L from Or.inl ⟨h0, hL⟩)]
    · rw [if_neg hL, if_neg ?hv]
      case hv =>
        rintro (⟨_, hb⟩ | ⟨ha, _⟩ | ⟨ha, _⟩) <;> omega
  · rw [if_neg h0]
    by_cases h1 : t.extra_multiple = 1
    · rw [if_pos h1]
      by_cases hL : L < t.min_size
      · rw [if_pos hL,
            if_pos (show sizeRuleViolated t L from Or.inr (Or.inl ⟨h1, hL⟩))]
      · rw [if_neg hL, if_neg ?hv]
        case hv =>
          rintro (⟨ha, _⟩ | ⟨_, hb⟩ | ⟨ha, _⟩) <;> omega
    · rw [if_neg h1]
      by_cases hc : L < t.min_size ∨ (L - t.min_size) % t.extra_multiple ≠ 0
      · rw [if_pos hc, if_pos (show sizeRuleViolated t L from
          Or.inr (Or.inr ⟨by omega, fun hand => by
            rcases hc with h | h
            · omega
            · exact h hand.2⟩))]
      · rw [if_neg hc, if_neg ?hv]
        case hv =>
          have hc1 := not_or.mp hc
          rintro (⟨ha, _⟩ | ⟨ha, _⟩ | ⟨_, hb⟩)
          · omega
          · omega
          · exact hb ⟨by omega, not_not.mp hc1.2⟩

/-- C2: for a message whose raw tuple matches a registry row,
classification returns BadLength exactly when the declared total length
violates the row size rule (exact, at-least, or base plus multiple);
boundary lengths (exactly the minimum, and the minimum plus one extra
unit) are accepted; on violation the stored type is the invalid
sentinel, and on success the row itself is stored with no error. -/
theorem registry_length_validation :
    ∀ (types : List OfputilMsgType) (mem : List Nat) (t : OfputilMsgType),
    ofputil_decode_msg_type__ types mem (be16At mem 2) = .ok t →
    ((ofputil_decode_msg_type types mem).1 = some Ofperr.badLen ↔
      sizeRuleViolated t (be16At mem 2)) ∧
    (sizeRuleViolated t (be16At mem 2) →
      (ofputil_decode_msg_type types mem).2 = ofputil_invalid_type) ∧
    (¬ sizeRuleViolated t (be16At mem 2) →
      ofputil_decode_msg_type types mem = (none, t)) ∧
    (be16At mem 2 = t.min_size → ¬ sizeRuleViolated t (be16At mem 2)) ∧
    (1 ≤ t.extra_multiple → be16At mem 2 = t.min_size + t.extra_multiple →
      ¬ sizeRuleViolated t (be16At mem 2)) := by
  intro types mem t hfind
  have hdm : ofputil_decode_msg_type types mem =
      if sizeRuleViolated t (be16At mem 2) then
        (some Ofperr.badLen, ofputil_invalid_type)
      else (none, t) := by
    simp only [ofputil_decode_msg_type, hfind, check_length_eq]
    by_cases hv : sizeRuleViolated t (be16At mem 2)
    · rw [if_pos hv, if_pos hv]
    · rw [if_neg hv, if_neg hv]
  refine ⟨?_, ?_, ?_, ?_, ?_⟩
  · rw [hdm]
    by_cases hv : sizeRuleViolated t (be16At mem 2) <;> simp [hv]
  · intro hv; rw [hdm, if_pos hv]
  · intro hv; rw [hdm, if_neg hv]
  · intro hL
    rintro (⟨_, hb⟩ | ⟨_, hb⟩ | ⟨_, hb⟩)
    · exact hb hL
    · omega
    · exact hb ⟨by omega, by rw [hL, Nat.sub_self]; exact Nat.zero_mod _⟩
  · intro hem hL
    rintro (⟨ha, _⟩ | ⟨_, hb⟩ | ⟨_, hb⟩)
    · omega
    · omega
    · exact hb ⟨by omega, by rw [hL, Nat.add_sub_cancel_left, Nat.mod_self]⟩

/-- C2 witness: the validation applied to a concrete echo request
against a registry holding its row. -/
theorem registry_length_validation_witness :
    ((ofputil_decode_msg_type [msgTypeEchoRequest] c2msg).1 =
        some Ofperr.badLen ↔
      sizeRuleViolated msgTypeEchoRequest (be16At c2msg 2)) ∧
    (sizeRuleViolated msgTypeEchoRequest (be16At c2msg 2) →
      (ofputil_decode_msg_type [msgTypeEchoRequest] c2msg).2 =
        ofputil_invalid_type) ∧
    (¬ sizeRuleViolated msgTypeEchoRequest (be16At c2msg 2) →
      ofputil_decode_msg_type [msgTypeEchoRequest] c2msg =
        (none, msgTypeEchoRequest)) ∧
    (be16At c2msg 2 = msgTypeEchoRequest.min_size →
      ¬ sizeRuleViolated msgTypeEchoRequest (be16At c2msg 2)) ∧
    (1 ≤ msgTypeEchoRequest.extra_multiple →
      be16At c2msg 2 = msgTypeEchoRequest.min_size +
        msgTypeEchoRequest.extra_multiple →
      ¬ sizeRuleViolated msgTypeEchoRequest (be16At c2msg 2)) :=
  registry_length_validation [msgTypeEchoRequest] c2msg msgTypeEchoRequest rfl

/-- C7: classification of a buffer shorter than the generic header always
returns BadLength with the invalid-type sentinel stored, both in the raw
key extraction and in the partial variant, and reads no byte of the
buffer: the result is the same for any two memory contents. -/
theorem short_buffer_classification :
    ∀ (types : List OfputilMsgType) (mem mem2 : List Nat) (length : Nat),
    length < SIZEOF_OFP_HEADER →
    ofputil_decode_raw_msg_type mem length = .error .badLen ∧
    ofputil_decode_msg_type_partial_len types mem length =
      (some .badLen, ofputil_invalid_type) ∧
    ofputil_decode_msg_type_partial_len types mem length =
      ofputil_decode_msg_type_partial_len types mem2 length := by
  intro types mem mem2 length h
  have hraw : ∀ m : List Nat,
      ofputil_decode_raw_msg_type m length = .error .badLen := by
    intro m
    unfold ofputil_decode_raw_msg_type
    rw [if_pos h]
  have hpart : ∀ m : List Nat,
      ofputil_decode_msg_type_partial_len types m length =
        (some .badLen, ofputil_invalid_type) := by
    intro m
    simp only [ofputil_decode_msg_type_partial_len]
    rw [if_neg (by omega : ¬ SIZEOF_OFP_HEADER ≤ length)]
  exact ⟨hraw mem, hpart mem, (hpart mem).trans (hpart mem2).symm⟩

/-- C7 witness: a 3-byte buffer and an unrelated 1-byte buffer. -/
theorem short_buffer_classification_witness :
    ofputil_decode_raw_msg_type [1, 2, 3] 3 = .error .badLen ∧
    ofputil_decode_msg_type_partial_len [] [1, 2, 3] 3 =
      (some .badLen, ofputil_invalid_type) ∧
    ofputil_decode_msg_type_partial_len [] [1, 2, 3] 3 =
      ofputil_decode_msg_type_partial_len [] [9] 3 :=
  short_buffer_classification [] [1, 2, 3] [9] 3 (by decide)

/-- C8: once the message body has no bytes remaining the stats-reply
iterator returns the EOF signal (for any message type and collaborators);
and on a flow-stats reply with exactly two packed Nicira records the
first two calls return success and the third returns EOF. -/
theorem flow_stats_reply_iteration :
    (∀ (types : List OfputilMsgType) (pull_nx : NxPullMatch)
       (pull_acts pull_insts : PullActs) (age : Bool) (st : OfpbufMsg)
       (hdr : List Nat),
      st.l2 = some hdr → st.data = [] →
      (ofputil_decode_flow_stats_reply types pull_nx pull_acts pull_insts
        age st).1 = .eof) ∧
    ((ofputil_decode_flow_stats_reply [msgTypeNxstFlowReply]
        nx_pull_match_model ofpacts_pull_model ofpacts_pull_model false
        ⟨none, c8msg⟩).1.isOk = true ∧
     ((ofputil_decode_flow_stats_reply [msgTypeNxstFlowReply]
        nx_pull_match_model ofpacts_pull_model ofpacts_pull_model false
        (ofputil_decode_flow_stats_reply [msgTypeNxstFlowReply]
          nx_pull_match_model ofpacts_pull_model ofpacts_pull_model false
          ⟨none, c8msg⟩).2).1.isOk = true) ∧
     (ofputil_decode_flow_stats_reply [msgTypeNxstFlowReply]
        nx_pull_match_model ofpacts_pull_model ofpacts_pull_model false
        (ofputil_decode_flow_stats_reply [msgTypeNxstFlowReply]
          nx_pull_match_model ofpacts_pull_model ofpacts_pull_model false
          (ofputil_decode_flow_stats_reply [msgTypeNxstFlowReply]
            nx_pull_match_model ofpacts_pull_model ofpacts_pull_model false
            ⟨none, c8msg⟩).2).2).1 = .eof) := by
  constructor
  · intro types pull_nx pull_acts pull_insts age st hdr hl2 hdata
    simp [ofputil_decode_flow_stats_reply, hl2, hdata]
  · decide

/-- C8 witness: the general EOF part applied at a drained iterator
state. -/
theorem flow_stats_reply_iteration_witness :
    (ofputil_decode_flow_stats_reply [] nx_pull_match_model
      ofpacts_pull_model ofpacts_pull_model false ⟨some [1], []⟩).1 =
      .eof :=
  flow_stats_reply_iteration.1 [] nx_pull_match_model ofpacts_pull_model
    ofpacts_pull_model false ⟨some [1], []⟩ [1] rfl rfl

/-- Collapsing a repeated conditional assignment. -/
theorem iteIdem (c : Prop) [Decidable c] (x y : Nat) :
    (if c then (if c then x else y) else y) = if c then x else y := by
  split_ifs <;> rfl

/-- The wildcard-clearing step is idempotent for a fixed flag set. -/
theorem clearWc_idem (mm : MayMatch) (wc : FlowWildcards) :
    normalizeClearWc mm (normalizeClearWc mm wc) = normalizeClearWc mm wc := by
  simp [normalizeClearWc, iteIdem, Bool.or_assoc, Bool.or_self]

/-- `normalizeMayMatch` only reads dl_type, vlan_tpid, vlan_qinq_tci,
and, in the branches that use them, nw_proto and tp_src. -/
theorem mayMatch_congr (f g : OvsFlow)
    (h1 : g.dl_type = f.dl_type)
    (h2 : f.dl_type = ETH_TYPE_IP ∨ f.dl_type = ETH_TYPE_IPV6 ∨
          f.dl_type = ETH_TYPE_ARP → g.nw_proto = f.nw_proto)
    (h3 : f.dl_type = ETH_TYPE_IPV6 → f.nw_proto = IPPROTO_ICMPV6 →
          g.tp_src = f.tp_src)
    (h4 : g.vlan_tpid = f.vlan_tpid)
    (h5 : g.vlan_qinq_tci = f.vlan_qinq_tci) :
    normalizeMayMatch g = normalizeMayMatch f := by
  unfold normalizeMayMatch
  rw [h1, h4, h5]
  by_cases hip : f.dl_type = ETH_TYPE_IP
  · simp [hip, h2 (Or.inl hip)]
  · by_cases hip6 : f.dl_type = ETH_TYPE_IPV6
    · have hnp := h2 (Or.inr (Or.inl hip6))
      by_cases hic : f.nw_proto = IPPROTO_ICMPV6
      · simp [hip, hip6, hnp, hic, h3 hip6 hic, ETH_TYPE_IP, ETH_TYPE_IPV6,
              IPPROTO_TCP, IPPROTO_UDP, IPPROTO_ICMPV6]
      · simp [hip, hip6, hnp, hic]
    · by_cases harp : f.dl_type = ETH_TYPE_ARP
      · simp [harp, ETH_TYPE_IP, ETH_TYPE_IPV6, ETH_TYPE_ARP,
              h2 (Or.inr (Or.inr harp))]
      · simp [hip, hip6, harp]

/-- For a rule whose flow is consistent with its wildcards, zeroing the
flow against the cleared wildcards leaves the may-match flags unchanged:
normalization never wildcards a field that its own branch reads. -/
theorem mayMatch_stable (wc : FlowWildcards) (f : OvsFlow)
    (h : zeroWildcardedFlow wc f = f) :
    normalizeMayMatch
      (zeroWildcardedFlow (normalizeClearWc (normalizeMayMatch f) wc) f) =
    normalizeMayMatch f := by
  have hdl0 : (if wc.wildcards.dl_type then 0 else f.dl_type) = f.dl_type := by
    have h2 := congrArg OvsFlow.dl_type h
    simpa [zeroWildcardedFlow] using h2
  have htpid0 : (if wc.wildcards.vlan_tpid then 0 else f.vlan_tpid) =
      f.vlan_tpid := by
    have h2 := congrArg OvsFlow.vlan_tpid h
    simpa [zeroWildcardedFlow] using h2
  have hqinq0 :
      ((if wc.wildcards.vlan_qinq_vid then f.vlan_qinq_tci &&& VLAN_PCP_MASK
        else f.vlan_qinq_tci) &&&
       (if wc.wildcards.vlan_qinq_pcp then VLAN_VID_MASK ||| VLAN_CFI
        else MASK16)) = f.vlan_qinq_tci := by
    have h2 := congrArg OvsFlow.vlan_qinq_tci h
    simpa [zeroWildcardedFlow] using h2
  have hnp0 : (if wc.wildcards.nw_proto then 0 else f.nw_proto) =
      f.nw_proto := by
    have h2 := congrArg OvsFlow.nw_proto h
    simpa [zeroWildcardedFlow] using h2
  have htp0 : f.tp_src &&& wc.tp_src_mask = f.tp_src := by
    have h2 := congrArg OvsFlow.tp_src h
    simpa [zeroWildcardedFlow] using h2
  apply mayMatch_congr
  · simpa [zeroWildcardedFlow, normalizeClearWc] using hdl0
  · intro hd3
    have hmmnp : (normalizeMayMatch f).nw_proto = true := by
      rcases hd3 with hd | hd | hd <;>
        simp [normalizeMayMatch, hd, ETH_TYPE_IP, ETH_TYPE_IPV6,
              ETH_TYPE_ARP] <;>
        split_ifs <;> rfl
    simpa [zeroWildcardedFlow, normalizeClearWc, hmmnp] using hnp0
  · intro hip6 hic
    have hmmtp : (normalizeMayMatch f).tp_addr = true := by
      simp [normalizeMayMatch, hip6, hic, ETH_TYPE_IP, ETH_TYPE_IPV6,
            IPPROTO_TCP, IPPROTO_UDP, IPPROTO_ICMPV6] <;>
        split_ifs <;> rfl
    simpa [zeroWildcardedFlow, normalizeClearWc, hmmtp] using htp0
  · simpa [zeroWildcardedFlow, normalizeClearWc] using htpid0
  · simpa [zeroWildcardedFlow, normalizeClearWc] using hqinq0

/-- A rule whose cleared wildcards equal its wildcards is a fixed point
of normalization. -/
theorem normalize_fixed (r1 : ClsRule)
    (hstable : normalizeClearWc (normalizeMayMatch r1.flow) r1.wc = r1.wc) :
    ofputil_normalize_rule r1 = r1 := by
  simp only [ofputil_normalize_rule]
  rw [if_pos hstable]

/-- C5 (amended): `ofputil_normalize_rule` is idempotent on every rule
satisfying the canonical-match invariant that each flow field bit its
wildcards mark irrelevant is zero — in particular on every rule produced
by the decoders, which end with `cls_rule_zero_wildcarded_fields`. -/
theorem normalize_rule_idempotent :
    ∀ r : ClsRule, cls_rule_zero_wildcarded_fields r = r →
    ofputil_normalize_rule (ofputil_normalize_rule r) =
      ofputil_normalize_rule r := by
  intro r h
  have hflow : zeroWildcardedFlow r.wc r.flow = r.flow := by
    have h2 := congrArg ClsRule.flow h
    simpa [cls_rule_zero_wildcarded_fields] using h2
  by_cases heq : normalizeClearWc (normalizeMayMatch r.flow) r.wc = r.wc
  · have hnr : ofputil_normalize_rule r = r := normalize_fixed r heq
    rw [hnr, hnr]
  · have hnr : ofputil_normalize_rule r =
        { flow := zeroWildcardedFlow
            (normalizeClearWc (normalizeMayMatch r.flow) r.wc) r.flow,
          wc := normalizeClearWc (normalizeMayMatch r.flow) r.wc,
          priority := r.priority } := by
      simp only [ofputil_normalize_rule]
      rw [if_neg heq]
      rfl
    rw [hnr]
    apply normalize_fixed
    show normalizeClearWc
        (normalizeMayMatch (zeroWildcardedFlow
          (normalizeClearWc (normalizeMayMatch r.flow) r.wc) r.flow))
        (normalizeClearWc (normalizeMayMatch r.flow) r.wc) =
      normalizeClearWc (normalizeMayMatch r.flow) r.wc
    rw [mayMatch_stable r.wc r.flow hflow]
    exact clearWc_idem _ _

/-- C5 counterexample: normalization is not idempotent as stated for all
rules: on `c5rule` the first pass zeroes the wildcarded dl_type, and the
second pass, now seeing no known ethertype, also clears the IPv4 source
mask the first pass had kept. -/
theorem normalize_rule_idempotent_counterexample :
    ofputil_normalize_rule (ofputil_normalize_rule c5rule) ≠
      ofputil_normalize_rule c5rule ∧
    (ofputil_normalize_rule c5rule).wc.nw_src_mask = 0xffffffff ∧
    (ofputil_normalize_rule
      (ofputil_normalize_rule c5rule)).wc.nw_src_mask = 0 := by
  decide

/-- C5 witness: idempotence applied at the consistent rule. -/
theorem normalize_rule_idempotent_witness :
    ofputil_normalize_rule (ofputil_normalize_rule c5consistent) =
      ofputil_normalize_rule c5consistent :=
  normalize_rule_idempotent c5consistent (by decide)
